import Mathlib

/-!
  # Verification of the gozk-recipes session manager

  Shallow embedding of `session/session.go`: the session lifecycle state
  machine (`manage`), the subscriber registry (`Subscribe` /
  `notifySubscribers`), the option defaulting in `NewSessionWithOpts`, and
  the pass-through data operations.

  Modelling conventions:
  * `time.Duration` is modelled as nanoseconds (`Nat`).
  * the external transport handle `*zookeeper.Conn` is modelled as an
    `Option Conn` (a nil-able pointer) where `Conn` is a record of the
    observable answers of the handle (its client id, the error its `Close`
    would return, and the responses of its data operations);
  * a transport signal carries, besides the raw connection state, the
    behaviour the external `zookeeper.Redial` call would have at the moment
    the signal is processed (the transport is an external collaborator, so
    its outcome is an input of the step);
  * calls to `s.log.Printf` are recorded as a list of `LogEntry` values (one
    per `Printf` call site, carrying the data interpolated into the format
    string where a claim depends on it);
  * the mutex discipline is modelled by per-function access traces
    (`List MAction`), recording in source order the lock/unlock operations
    and the accesses to the guarded fields that each function performs.
-/

/-- `time.Duration` in nanoseconds. -/
abbrev Duration := Nat

/-- `time.Second` in nanoseconds. -/
def timeSecond : Duration := 1000000000

/-- `DefaultRecvTimeout = 5 * time.Second` (session.go line 51). -/
def DefaultRecvTimeout : Duration := 5 * timeSecond

/-- Opaque model of `*zookeeper.ClientId` values (the resumption token). -/
abbrev ZkClientId := Nat

/-- Opaque model of `zookeeper.Stat`. -/
abbrev ZkStat := Nat

/-- Opaque model of `zookeeper.ACL`. -/
abbrev ZkACL := Nat

/-- Errors returned by the transport, modelled by their message. -/
abbrev ZkError := String

/-- Identifier of a `<-chan zookeeper.Event` value (watch / signal streams
are opaque channel values; only their identity matters here). -/
abbrev ZkEventChan := Nat

/-- Model of `zookeeper.ChangeFunc = func(string, *Stat) (string, error)`. -/
abbrev ZkChangeFunc := String → Option ZkStat → String × Option ZkError

/-- The `stdLogger` interface (session.go lines 16-18): a printf-style
capability; calling it returns the lines it emits. -/
structure StdLogger where
  printf : String → List String → List String

/-- `nullLogger` (session.go lines 21-23): its `Printf` does nothing. -/
def nullLogger : StdLogger := { printf := fun _ _ => [] }

/-- Model of a non-nil `*zookeeper.Conn` transport handle: the observable
answers of the external handle.  The `…Resp` fields are the responses the
underlying client would give to each data operation. -/
structure Conn where
  id : Nat
  clientIdVal : Option ZkClientId
  closeErr : Option ZkError
  connectedServerVal : String
  currentServerVal : String × Option ZkError
  resolutionDelay : Duration
  aclResp : String → List ZkACL × Option ZkStat × Option ZkError
  addAuthResp : String → String → Option ZkError
  childrenResp : String → List String × Option ZkStat × Option ZkError
  childrenWResp : String → List String × Option ZkStat × ZkEventChan × Option ZkError
  createResp : String → String → Int → List ZkACL → String × Option ZkError
  deleteResp : String → Int → Option ZkError
  existsResp : String → Option ZkStat × Option ZkError
  existsWResp : String → Option ZkStat × ZkEventChan × Option ZkError
  getResp : String → String × Option ZkStat × Option ZkError
  getWResp : String → String × Option ZkStat × ZkEventChan × Option ZkError
  setResp : String → String → Int → Option ZkStat × Option ZkError
  retryChangeResp : String → Int → List ZkACL → ZkChangeFunc → Option ZkError
  setACLResp : String → List ZkACL → Int → Option ZkError

/-- `conn.ClientId()` of the external handle. -/
def Conn.ClientId (c : Conn) : Option ZkClientId := c.clientIdVal

/-- Modelled from the spec: the option-builder file (the `SessionOpts`
record and the `With…` option constructors, together with
`SessionOpts.Create`) is not under `src/`; only `session/session.go` is.
§6 of the spec lists the recognized options — `servers`, `recvTimeout`,
`logger` and the `clientIdentity`/resumption token — and session.go reads
exactly the fields `servers`, `recvTimeout`, `clientID` and `logger`. -/
structure SessionOpts where
  logger : StdLogger
  recvTimeout : Duration
  servers : List String
  clientID : Option ZkClientId

/-- Modelled from the spec: the `With…` option constructors
(`WithLogger`, `WithZookeepers`, `WithRecvTimeout`,
`WithZookeeperClientID`) live in the option-builder file that is not under
`src/`.  Each is a value that, applied to a `SessionOpts`, sets the
corresponding recognized option of §6. -/
inductive SessionOpt
  | withLogger (l : StdLogger)
  | withZookeepers (zks : List String)
  | withRecvTimeout (d : Duration)
  | withZookeeperClientID (c : Option ZkClientId)

/-- Modelled from the spec: application of an option constructor to a
`SessionOpts`, setting the recognized field it names (§6). -/
def applyOpt (o : SessionOpts) : SessionOpt → SessionOpts
  | SessionOpt.withLogger l => { o with logger := l }
  | SessionOpt.withZookeepers zks => { o with servers := zks }
  | SessionOpt.withRecvTimeout d => { o with recvTimeout := d }
  | SessionOpt.withZookeeperClientID c => { o with clientID := c }

/-- Whether an option sets the receive timeout. -/
def SessionOpt.setsRecvTimeout : SessionOpt → Bool
  | SessionOpt.withRecvTimeout _ => true
  | _ => false

/-- Whether an option sets the logger. -/
def SessionOpt.setsLogger : SessionOpt → Bool
  | SessionOpt.withLogger _ => true
  | _ => false

/-- The option folding of `NewSessionWithOpts` (session.go lines 74-81):
start from the defaults `{logger: &nullLogger{}, recvTimeout:
DefaultRecvTimeout}` (the remaining fields are Go zero values) and apply
the caller's options in order. -/
def buildSessionOpts (opts : List SessionOpt) : SessionOpts :=
  opts.foldl applyOpt
    { logger := nullLogger
      recvTimeout := DefaultRecvTimeout
      servers := []
      clientID := none }

/-- `ZKSessionEvent` (session.go lines 32-52). -/
inductive ZKSessionEvent
  | SessionClosed
  | SessionDisconnected
  | SessionReconnected
  | SessionExpiredReconnected
  | SessionFailed
deriving DecidableEq, Repr

/-- The connection states of `zookeeper.Event.State` that `manage`
distinguishes, plus `other` for every unrecognized state value (the Go
`switch` has no `default` case). -/
inductive ZkState
  | STATE_EXPIRED_SESSION
  | STATE_AUTH_FAILED
  | STATE_CONNECTING
  | STATE_ASSOCIATING
  | STATE_CONNECTED
  | STATE_CLOSED
  | other (code : Int)
deriving DecidableEq, Repr

/-- True for the six states `manage`'s switch recognizes. -/
def isKnownState : ZkState → Bool
  | ZkState.other _ => false
  | _ => true

/-- `ZKSession` (session.go lines 54-62).  The mutex `mu` is modelled by
the access traces below; `log` is the injected logger capability. -/
structure ZKSession where
  opts : SessionOpts
  conn : Option Conn
  events : ZkEventChan
  subscriptions : List Nat
  log : StdLogger

/-- `Subscribe` (session.go lines 115-119): appends the sink under the
mutex (sinks are identified by `Nat` tags). -/
def ZKSession.Subscribe (s : ZKSession) (k : Nat) : ZKSession :=
  { s with subscriptions := s.subscriptions ++ [k] }

/-- `notifySubscribers` (session.go lines 121-127): under the mutex,
delivers `event` to every registered sink in registration order.  The
result is the list of (sink, event) deliveries performed, in order. -/
def notifySubscribers (s : ZKSession) (event : ZKSessionEvent) :
    List (Nat × ZKSessionEvent) :=
  s.subscriptions.map (fun subscriber => (subscriber, event))

/-- Messages passed to `s.log.Printf` by `manage`, one constructor per
call site, carrying the interpolated data a claim depends on. -/
inductive LogEntry
  | gotExpired
  | redialed
  | closeError (e : ZkError)
  | reestablished (server : String)
  | failedExpired (e : ZkError)
  | failedAuth
  | disconnectedMsg
  | expiredReconnectedMsg
  | reconnectedMsg
  | closedMsg
deriving DecidableEq, Repr

/-- A transport signal: the raw `zookeeper.Event` state together with the
behaviour the external `zookeeper.Redial` call would have were it invoked
while processing this signal (arguments: joined server string, receive
timeout, resumption token; result: new handle and new signal stream, or an
error). -/
structure Signal where
  state : ZkState
  redial : String → Duration → Option ZkClientId →
    Except ZkError (Conn × ZkEventChan)

/-- The state of the `manage` loop: the session, the loop-local `expired`
flag (session.go line 130) and whether the loop has returned. -/
structure LoopState where
  sess : ZKSession
  expired : Bool
  terminated : Bool

/-- The loop state at the top of `manage` (session.go line 130):
`expired := false`, loop running. -/
def initLoop (s : ZKSession) : LoopState :=
  { sess := s, expired := false, terminated := false }

/-- The arguments `manage` passes to `zookeeper.Redial` (session.go line
138): `strings.Join(s.opts.servers, ",")`, `s.opts.recvTimeout`,
`s.opts.clientID`. -/
def redialCallArgs (s : ZKSession) : String × Duration × Option ZkClientId :=
  (String.intercalate "," s.opts.servers, s.opts.recvTimeout, s.opts.clientID)

/-- The observable output of processing one signal: the next loop state,
the lifecycle events emitted (via `notifySubscribers`), the (sink, event)
deliveries performed, and the log messages written. -/
structure StepOut where
  next : LoopState
  emitted : List ZKSessionEvent
  deliveries : List (Nat × ZKSessionEvent)
  logs : List LogEntry

/-- One iteration of the `select`/`switch` body of `manage` (session.go
lines 131-187), processing a single signal. -/
def manageStep (st : LoopState) (sig : Signal) : StepOut :=
  match sig.state with
  | ZkState.STATE_EXPIRED_SESSION =>
      match sig.redial (redialCallArgs st.sess).1 (redialCallArgs st.sess).2.1
          (redialCallArgs st.sess).2.2 with
      | Except.ok (conn, events) =>
          { next :=
              { sess :=
                  { st.sess with
                    conn := some conn
                    events := events
                    opts := applyOpt st.sess.opts
                      (SessionOpt.withZookeeperClientID conn.ClientId) }
                expired := true
                terminated := false }
            emitted := []
            deliveries := []
            logs := [LogEntry.gotExpired, LogEntry.redialed] ++
              (match st.sess.conn with
               | some old =>
                   match old.closeErr with
                   | some e => [LogEntry.closeError e]
                   | none => []
               | none => []) ++
              [LogEntry.reestablished conn.connectedServerVal] }
      | Except.error e =>
          { next := { st with expired := true, terminated := true }
            emitted := [ZKSessionEvent.SessionFailed]
            deliveries := notifySubscribers st.sess ZKSessionEvent.SessionFailed
            logs := [LogEntry.gotExpired, LogEntry.failedExpired e] }
  | ZkState.STATE_AUTH_FAILED =>
      { next := { st with terminated := true }
        emitted := [ZKSessionEvent.SessionFailed]
        deliveries := notifySubscribers st.sess ZKSessionEvent.SessionFailed
        logs := [LogEntry.failedAuth] }
  | ZkState.STATE_CONNECTING =>
      { next := st
        emitted := [ZKSessionEvent.SessionDisconnected]
        deliveries := notifySubscribers st.sess ZKSessionEvent.SessionDisconnected
        logs := [LogEntry.disconnectedMsg] }
  | ZkState.STATE_ASSOCIATING =>
      { next := st, emitted := [], deliveries := [], logs := [] }
  | ZkState.STATE_CONNECTED =>
      if st.expired then
        { next := { st with expired := false }
          emitted := [ZKSessionEvent.SessionExpiredReconnected]
          deliveries :=
            notifySubscribers st.sess ZKSessionEvent.SessionExpiredReconnected
          logs := [LogEntry.expiredReconnectedMsg] }
      else
        { next := st
          emitted := [ZKSessionEvent.SessionReconnected]
          deliveries := notifySubscribers st.sess ZKSessionEvent.SessionReconnected
          logs := [LogEntry.reconnectedMsg] }
  | ZkState.STATE_CLOSED =>
      { next := { st with terminated := true }
        emitted := [ZKSessionEvent.SessionClosed]
        deliveries := notifySubscribers st.sess ZKSessionEvent.SessionClosed
        logs := [LogEntry.closedMsg] }
  | ZkState.other _ =>
      { next := st, emitted := [], deliveries := [], logs := [] }

/-- The observable output of a whole run of the loop. -/
structure RunOut where
  final : LoopState
  events : List ZKSessionEvent
  deliveries : List (Nat × ZKSessionEvent)
  logs : List LogEntry

/-- Running `manage` over a finite list of signals.  Once the loop has
returned (`terminated`), no further signal is read. -/
def runSignals (st : LoopState) : List Signal → RunOut
  | [] => { final := st, events := [], deliveries := [], logs := [] }
  | sig :: rest =>
      if st.terminated then
        { final := st, events := [], deliveries := [], logs := [] }
      else
        let o := manageStep st sig
        let r := runSignals o.next rest
        { final := r.final
          events := o.emitted ++ r.events
          deliveries := o.deliveries ++ r.deliveries
          logs := o.logs ++ r.logs }

/-- The pass-through data operations (session.go lines 101-113 and
190-248): each reads `s.conn` (without touching the mutex — see the access
traces below) and calls through to the handle with exactly the caller's
arguments; `none` models the nil-pointer dereference that would occur were
the handle nil. -/
def ZKSession.CurrentConnection (s : ZKSession) :
    Option (String × Option ZkError) :=
  s.conn.map (fun c => c.currentServerVal)

/-- `CurrentServer` (session.go lines 107-109). -/
def ZKSession.CurrentServer (s : ZKSession) : Option String :=
  s.conn.map (fun c => c.connectedServerVal)

/-- `SetServersResolutionDelay` (session.go lines 111-113); the mutation of
the handle is modelled by returning the updated handle. -/
def ZKSession.SetServersResolutionDelay (s : ZKSession) (delay : Duration) :
    Option Conn :=
  s.conn.map (fun c => { c with resolutionDelay := delay })

/-- `ACL` (session.go lines 190-192). -/
def ZKSession.ACL (s : ZKSession) (path : String) :
    Option (List ZkACL × Option ZkStat × Option ZkError) :=
  s.conn.map (fun c => c.aclResp path)

/-- `AddAuth` (session.go lines 194-196). -/
def ZKSession.AddAuth (s : ZKSession) (scheme cert : String) :
    Option (Option ZkError) :=
  s.conn.map (fun c => c.addAuthResp scheme cert)

/-- `Children` (session.go lines 198-200). -/
def ZKSession.Children (s : ZKSession) (path : String) :
    Option (List String × Option ZkStat × Option ZkError) :=
  s.conn.map (fun c => c.childrenResp path)

/-- `ChildrenW` (session.go lines 202-204). -/
def ZKSession.ChildrenW (s : ZKSession) (path : String) :
    Option (List String × Option ZkStat × ZkEventChan × Option ZkError) :=
  s.conn.map (fun c => c.childrenWResp path)

/-- `ClientId` (session.go lines 206-208). -/
def ZKSession.ClientId (s : ZKSession) : Option (Option ZkClientId) :=
  s.conn.map (fun c => c.ClientId)

/-- `Close` (session.go lines 210-212). -/
def ZKSession.Close (s : ZKSession) : Option (Option ZkError) :=
  s.conn.map (fun c => c.closeErr)

/-- `Create` (session.go lines 214-216). -/
def ZKSession.Create (s : ZKSession) (path value : String) (flags : Int)
    (aclv : List ZkACL) : Option (String × Option ZkError) :=
  s.conn.map (fun c => c.createResp path value flags aclv)

/-- `Delete` (session.go lines 218-220). -/
def ZKSession.Delete (s : ZKSession) (path : String) (version : Int) :
    Option (Option ZkError) :=
  s.conn.map (fun c => c.deleteResp path version)

/-- `Exists` (session.go lines 222-224). -/
def ZKSession.Exists (s : ZKSession) (path : String) :
    Option (Option ZkStat × Option ZkError) :=
  s.conn.map (fun c => c.existsResp path)

/-- `ExistsW` (session.go lines 226-228). -/
def ZKSession.ExistsW (s : ZKSession) (path : String) :
    Option (Option ZkStat × ZkEventChan × Option ZkError) :=
  s.conn.map (fun c => c.existsWResp path)

/-- `Get` (session.go lines 230-232). -/
def ZKSession.Get (s : ZKSession) (path : String) :
    Option (String × Option ZkStat × Option ZkError) :=
  s.conn.map (fun c => c.getResp path)

/-- `GetW` (session.go lines 234-236). -/
def ZKSession.GetW (s : ZKSession) (path : String) :
    Option (String × Option ZkStat × ZkEventChan × Option ZkError) :=
  s.conn.map (fun c => c.getWResp path)

/-- `Set` (session.go lines 238-240). -/
def ZKSession.Set (s : ZKSession) (path value : String) (version : Int) :
    Option (Option ZkStat × Option ZkError) :=
  s.conn.map (fun c => c.setResp path value version)

/-- `RetryChange` (session.go lines 242-244). -/
def ZKSession.RetryChange (s : ZKSession) (path : String) (flags : Int)
    (acl : List ZkACL) (changeFunc : ZkChangeFunc) : Option (Option ZkError) :=
  s.conn.map (fun c => c.retryChangeResp path flags acl changeFunc)

/-- `SetACL` (session.go lines 246-248). -/
def ZKSession.SetACL (s : ZKSession) (path : String) (aclv : List ZkACL)
    (version : Int) : Option (Option ZkError) :=
  s.conn.map (fun c => c.setACLResp path aclv version)

/-- An interaction with the session: either the transport delivers a
signal to the loop, or a client calls `Subscribe` with a new sink. -/
inductive SessAction
  | deliver (sig : Signal)
  | subscribe (sink : Nat)

/-- Running a finite schedule of interactions.  `Subscribe` appends to the
subscriber list whether or not the loop has returned; a signal delivered
after the loop has returned is never read, so it produces no events, no
deliveries and no state change. -/
def runActions (st : LoopState) : List SessAction → RunOut
  | [] => { final := st, events := [], deliveries := [], logs := [] }
  | SessAction.subscribe k :: rest =>
      runActions { st with sess := st.sess.Subscribe k } rest
  | SessAction.deliver sig :: rest =>
      if st.terminated then runActions st rest
      else
        let o := manageStep st sig
        let r := runActions o.next rest
        { final := r.final
          events := o.emitted ++ r.events
          deliveries := o.deliveries ++ r.deliveries
          logs := o.logs ++ r.logs }

/-- A primitive access performed by a `ZKSession` method, in source order:
mutex operations and accesses to the fields the mutex guards.  `readConn`
is a read of `s.conn`; the `write…` actions are the handle/stream/token
assignments of the redial swap; `send` is a blocking send to one
subscriber sink; `callTransport` is the delegated call on the handle. -/
inductive MAction
  | lock
  | unlock
  | readConn
  | closeOld
  | writeConn
  | writeEvents
  | writeToken
  | send (sink : Nat)
  | appendSub
  | callTransport (op : String)
deriving DecidableEq, Repr

/-- `guardedBy p d tr = true` iff, scanning the trace `tr` starting with
`d` nested mutex acquisitions held, every action satisfying `p` happens
while the mutex is held. -/
def guardedBy (p : MAction → Bool) : Nat → List MAction → Bool
  | _, [] => true
  | d, MAction.lock :: r => guardedBy p (d + 1) r
  | d, MAction.unlock :: r => guardedBy p (d - 1) r
  | d, a :: r => (!p a || decide (0 < d)) && guardedBy p d r

/-- Selector for reads of `s.conn`. -/
def isReadConn : MAction → Bool
  | MAction.readConn => true
  | _ => false

/-- Selector for sends to subscriber sinks. -/
def isSend : MAction → Bool
  | MAction.send _ => true
  | _ => false

/-- Selector for the resumption-token write of the redial swap. -/
def isTokenWrite : MAction → Bool
  | MAction.writeToken => true
  | _ => false

/-- Access trace of the redial swap in `manage` (session.go lines
141-151): `s.mu.Lock()`; read `s.conn` for the nil check; close the old
handle; write `s.conn`, `s.events`, `s.opts` (the resumption token);
`s.mu.Unlock()`. -/
def redialSwapActions : List MAction :=
  [MAction.lock, MAction.readConn, MAction.closeOld, MAction.writeConn,
   MAction.writeEvents, MAction.writeToken, MAction.unlock]

/-- Access trace of `Subscribe` (session.go lines 115-119). -/
def subscribeActions : List MAction :=
  [MAction.lock, MAction.appendSub, MAction.unlock]

/-- Access trace of `notifySubscribers` (session.go lines 121-127): the
mutex is held across the whole fan-out. -/
def notifyActions (subs : List Nat) : List MAction :=
  MAction.lock :: (subs.map MAction.send ++ [MAction.unlock])

/-- Access trace of a pass-through data operation with the given delegated
call (session.go lines 101-113 and 190-248): each reads `s.conn` and calls
through; no statement of these method bodies touches `s.mu`. -/
def passthroughActions (op : String) : List MAction :=
  [MAction.readConn, MAction.callTransport op]

/-- A transport signal abstracted to the alternatives of the §4.1 table:
the raw state, with the expiry signal split by the outcome of its redial. -/
inductive AbsSignal
  | connecting
  | associating
  | connected
  | expiredOk
  | expiredFail
  | authFailed
  | closed
  | unknown
deriving DecidableEq, Repr

/-- Abstraction of one signal at a given loop state: resolves the expiry
signal by the outcome its redial has there. -/
def absOf (st : LoopState) (sig : Signal) : AbsSignal :=
  match sig.state with
  | ZkState.STATE_EXPIRED_SESSION =>
      match sig.redial (redialCallArgs st.sess).1 (redialCallArgs st.sess).2.1
          (redialCallArgs st.sess).2.2 with
      | Except.ok _ => AbsSignal.expiredOk
      | Except.error _ => AbsSignal.expiredFail
  | ZkState.STATE_AUTH_FAILED => AbsSignal.authFailed
  | ZkState.STATE_CONNECTING => AbsSignal.connecting
  | ZkState.STATE_ASSOCIATING => AbsSignal.associating
  | ZkState.STATE_CONNECTED => AbsSignal.connected
  | ZkState.STATE_CLOSED => AbsSignal.closed
  | ZkState.other _ => AbsSignal.unknown

/-- Abstraction of a whole signal sequence, resolving each redial outcome
at the loop state reached when that signal is processed. -/
def absSignals (st : LoopState) : List Signal → List AbsSignal
  | [] => []
  | sig :: rest => absOf st sig :: absSignals (manageStep st sig).next rest

/-- Written from the spec: the deterministic transition table of §4.1,
as a translation from abstract signal sequences to lifecycle event
sequences.  Connecting emits Disconnected; Associating emits nothing;
Connected emits Reconnected when `expired` is false and ExpiredReconnected
(clearing `expired`) when it is true; SessionExpired with a successful
redial sets `expired` and emits nothing; SessionExpired with a failed
redial, and AuthFailed, emit Failed and end the sequence; Closed emits
Closed and ends the sequence. -/
def specEvents : Bool → List AbsSignal → List ZKSessionEvent
  | _, [] => []
  | e, AbsSignal.connecting :: r =>
      ZKSessionEvent.SessionDisconnected :: specEvents e r
  | e, AbsSignal.associating :: r => specEvents e r
  | e, AbsSignal.connected :: r =>
      if e then ZKSessionEvent.SessionExpiredReconnected :: specEvents false r
      else ZKSessionEvent.SessionReconnected :: specEvents e r
  | _, AbsSignal.expiredOk :: r => specEvents true r
  | _, AbsSignal.expiredFail :: _ => [ZKSessionEvent.SessionFailed]
  | _, AbsSignal.authFailed :: _ => [ZKSessionEvent.SessionFailed]
  | _, AbsSignal.closed :: _ => [ZKSessionEvent.SessionClosed]
  | e, AbsSignal.unknown :: r => specEvents e r

/-- The update of the loop-local `expired` flag performed by one step. -/
def flagUpd (e : Bool) (sig : Signal) : Bool :=
  match sig.state with
  | ZkState.STATE_EXPIRED_SESSION => true
  | ZkState.STATE_CONNECTED => false
  | _ => e

/-- The `expired` flag after a sequence of signals, as a fold of the
per-step updates. -/
def expiredFold (e : Bool) : List Signal → Bool
  | [] => e
  | sig :: r => expiredFold (flagUpd e sig) r

/-! ## Test fixtures used by the witnesses -/

/-- A concrete transport handle whose operations answer trivially. -/
def testConn : Conn :=
  { id := 1
    clientIdVal := some 7
    closeErr := none
    connectedServerVal := "zk1:2181"
    currentServerVal := ("zk1:2181", none)
    resolutionDelay := 0
    aclResp := fun _ => ([], none, none)
    addAuthResp := fun _ _ => none
    childrenResp := fun _ => ([], none, none)
    childrenWResp := fun _ => ([], none, 0, none)
    createResp := fun _ _ _ _ => ("", none)
    deleteResp := fun _ _ => none
    existsResp := fun _ => (none, none)
    existsWResp := fun _ => (none, 0, none)
    getResp := fun _ => ("", none, none)
    getWResp := fun _ => ("", none, 0, none)
    setResp := fun _ _ _ => (none, none)
    retryChangeResp := fun _ _ _ _ => none
    setACLResp := fun _ _ _ => none }

/-- A handle whose `Close` fails. -/
def testConnBad : Conn := { testConn with closeErr := some "close failed" }

/-- A fresh handle a successful redial could return. -/
def testConn2 : Conn := { testConn with id := 2, clientIdVal := some 9 }

/-- A concrete session holding `testConnBad`, with one subscriber. -/
def testSession : ZKSession :=
  { opts :=
      { logger := nullLogger
        recvTimeout := DefaultRecvTimeout
        servers := ["zk1:2181"]
        clientID := some 7 }
    conn := some testConnBad
    events := 0
    subscriptions := [4]
    log := nullLogger }

/-- The loop state at the top of `manage` over `testSession`. -/
def testLoop : LoopState := initLoop testSession

/-- A Connecting signal (the redial behaviour is irrelevant off expiry). -/
def sigConnecting : Signal :=
  { state := ZkState.STATE_CONNECTING, redial := fun _ _ _ => Except.error "x" }

/-- An Associating signal. -/
def sigAssociating : Signal :=
  { state := ZkState.STATE_ASSOCIATING, redial := fun _ _ _ => Except.error "x" }

/-- A Connected signal. -/
def sigConnected : Signal :=
  { state := ZkState.STATE_CONNECTED, redial := fun _ _ _ => Except.error "x" }

/-- An AuthFailed signal. -/
def sigAuthFailed : Signal :=
  { state := ZkState.STATE_AUTH_FAILED, redial := fun _ _ _ => Except.error "x" }

/-- A Closed signal. -/
def sigClosed : Signal :=
  { state := ZkState.STATE_CLOSED, redial := fun _ _ _ => Except.error "x" }

/-- A signal with an unrecognized connection state. -/
def sigOther : Signal :=
  { state := ZkState.other 42, redial := fun _ _ _ => Except.error "x" }

/-- A SessionExpired signal whose redial succeeds with `testConn2`. -/
def sigExpiredOk : Signal :=
  { state := ZkState.STATE_EXPIRED_SESSION
    redial := fun _ _ _ => Except.ok (testConn2, 5) }

/-- A SessionExpired signal whose redial fails. -/
def sigExpiredFail : Signal :=
  { state := ZkState.STATE_EXPIRED_SESSION
    redial := fun _ _ _ => Except.error "dial refused" }

/-! ## Helper lemmas -/

/-- Once the loop has returned, a run consumes nothing. -/
theorem runSignals_terminated (st : LoopState) (l : List Signal)
    (h : st.terminated = true) :
    runSignals st l = { final := st, events := [], deliveries := [], logs := [] } := by
  cases l with
  | nil => rfl
  | cons a r => simp [runSignals, h]

/-- No step of the loop changes the subscriber list. -/
theorem manageStep_subscriptions (st : LoopState) (sig : Signal) :
    (manageStep st sig).next.sess.subscriptions = st.sess.subscriptions := by
  obtain ⟨stt, rd⟩ := sig
  cases stt with
  | STATE_EXPIRED_SESSION =>
      cases hr : rd (redialCallArgs st.sess).1 (redialCallArgs st.sess).2.1
          (redialCallArgs st.sess).2.2 with
      | ok v => simp [manageStep, hr]
      | error e => simp [manageStep, hr]
  | STATE_CONNECTED =>
      by_cases he : st.expired <;> simp [manageStep, he]
  | STATE_AUTH_FAILED => rfl
  | STATE_CONNECTING => rfl
  | STATE_ASSOCIATING => rfl
  | STATE_CLOSED => rfl
  | other code => rfl

/-- The `expired` flag after one step is the table's flag update. -/
theorem manageStep_expired_eq (st : LoopState) (sig : Signal) :
    (manageStep st sig).next.expired = flagUpd st.expired sig := by
  obtain ⟨stt, rd⟩ := sig
  cases stt with
  | STATE_EXPIRED_SESSION =>
      cases hr : rd (redialCallArgs st.sess).1 (redialCallArgs st.sess).2.1
          (redialCallArgs st.sess).2.2 with
      | ok v => simp [manageStep, hr, flagUpd]
      | error e => simp [manageStep, hr, flagUpd]
  | STATE_CONNECTED =>
      by_cases he : st.expired <;> simp [manageStep, he, flagUpd]
  | STATE_AUTH_FAILED => rfl
  | STATE_CONNECTING => rfl
  | STATE_ASSOCIATING => rfl
  | STATE_CLOSED => rfl
  | other code => rfl

/-- Folding the per-step flag updates over an append. -/
theorem expiredFold_append (e : Bool) (l m : List Signal) :
    expiredFold e (l ++ m) = expiredFold (expiredFold e l) m := by
  induction l generalizing e with
  | nil => rfl
  | cons s r ih => simp [expiredFold, ih]

/-- Options that do not set the receive timeout leave it unchanged. -/
theorem foldl_recvTimeout (opts : List SessionOpt) (base : SessionOpts)
    (h : opts.all (fun o => !o.setsRecvTimeout) = true) :
    (opts.foldl applyOpt base).recvTimeout = base.recvTimeout := by
  induction opts generalizing base with
  | nil => rfl
  | cons o r ih =>
      simp only [List.all_cons, Bool.and_eq_true] at h
      rw [List.foldl_cons, ih _ h.2]
      cases o with
      | withRecvTimeout d => simp [SessionOpt.setsRecvTimeout] at h
      | withLogger l => rfl
      | withZookeepers zks => rfl
      | withZookeeperClientID c => rfl

/-- Options that do not set the logger leave it unchanged. -/
theorem foldl_logger (opts : List SessionOpt) (base : SessionOpts)
    (h : opts.all (fun o => !o.setsLogger) = true) :
    (opts.foldl applyOpt base).logger = base.logger := by
  induction opts generalizing base with
  | nil => rfl
  | cons o r ih =>
      simp only [List.all_cons, Bool.and_eq_true] at h
      rw [List.foldl_cons, ih _ h.2]
      cases o with
      | withLogger l => simp [SessionOpt.setsLogger] at h
      | withRecvTimeout d => rfl
      | withZookeepers zks => rfl
      | withZookeeperClientID c => rfl

/-- Deliveries of one broadcast, projected on one sink tag. -/
theorem filter_map_pair (l : List Nat) (e : ZKSessionEvent) (k : Nat) :
    ((l.map (fun j => (j, e))).filter (fun d => d.1 == k)).map Prod.snd =
      List.replicate (l.count k) e := by
  induction l with
  | nil => rfl
  | cons j r ih =>
      simp only [List.map_cons, List.filter_cons, List.count_cons]
      by_cases h : j == k
      · simp [h, ih, List.replicate_succ]
      · simp [h, ih]

/-- A broadcast delivers the event once to a sink registered once. -/
theorem notify_filter (s : ZKSession) (e : ZKSessionEvent) (k : Nat)
    (h : s.subscriptions.count k = 1) :
    ((notifySubscribers s e).filter (fun d => d.1 == k)).map Prod.snd = [e] := by
  unfold notifySubscribers
  rw [filter_map_pair, h]
  rfl

/-- One step's deliveries, projected on a sink registered once, are
exactly the events the step emits. -/
theorem manageStep_filter_deliv (st : LoopState) (sig : Signal) (k : Nat)
    (h : st.sess.subscriptions.count k = 1) :
    ((manageStep st sig).deliveries.filter (fun d => d.1 == k)).map Prod.snd =
      (manageStep st sig).emitted := by
  obtain ⟨stt, rd⟩ := sig
  cases stt with
  | STATE_EXPIRED_SESSION =>
      cases hr : rd (redialCallArgs st.sess).1 (redialCallArgs st.sess).2.1
          (redialCallArgs st.sess).2.2 with
      | ok v => simp [manageStep, hr]
      | error e => simp [manageStep, hr, notify_filter st.sess _ k h]
  | STATE_CONNECTED =>
      by_cases he : st.expired <;>
        simp [manageStep, he, notify_filter st.sess _ k h]
  | STATE_AUTH_FAILED => simp [manageStep, notify_filter st.sess _ k h]
  | STATE_CONNECTING => simp [manageStep, notify_filter st.sess _ k h]
  | STATE_ASSOCIATING => simp [manageStep]
  | STATE_CLOSED => simp [manageStep, notify_filter st.sess _ k h]
  | other code => simp [manageStep]

/-! ## Claim theorems -/

/-- C4: the claim states that every pass-through data operation reads the
current transport handle under the same mutex the loop holds when swapping
it.  In the source no pass-through method body touches `s.mu`: their
access traces read `s.conn` with the mutex not held, while the redial swap
in `manage` does hold the mutex for its access to `s.conn`.  This theorem
evaluates the access traces: the guard check fails for every pass-through
operation and succeeds for the loop's swap. -/
theorem passthrough_reads_unlocked :
    guardedBy isReadConn 0 (passthroughActions "Exists") = false ∧
    guardedBy isReadConn 0 (passthroughActions "ExistsW") = false ∧
    guardedBy isReadConn 0 (passthroughActions "Get") = false ∧
    guardedBy isReadConn 0 (passthroughActions "GetW") = false ∧
    guardedBy isReadConn 0 (passthroughActions "Set") = false ∧
    guardedBy isReadConn 0 (passthroughActions "Create") = false ∧
    guardedBy isReadConn 0 (passthroughActions "Delete") = false ∧
    guardedBy isReadConn 0 (passthroughActions "Children") = false ∧
    guardedBy isReadConn 0 (passthroughActions "ChildrenW") = false ∧
    guardedBy isReadConn 0 (passthroughActions "ACL") = false ∧
    guardedBy isReadConn 0 (passthroughActions "SetACL") = false ∧
    guardedBy isReadConn 0 (passthroughActions "AddAuth") = false ∧
    guardedBy isReadConn 0 (passthroughActions "RetryChange") = false ∧
    guardedBy isReadConn 0 (passthroughActions "ClientId") = false ∧
    guardedBy isReadConn 0 (passthroughActions "Close") = false ∧
    guardedBy isReadConn 0 (passthroughActions "CurrentServer") = false ∧
    guardedBy isReadConn 0 (passthroughActions "CurrentConnection") = false ∧
    guardedBy isReadConn 0 redialSwapActions = true := by
  decide

/-- C8: processing an Associating signal (also any number of consecutive
ones) emits no lifecycle event, delivers nothing, logs nothing, and leaves
the loop state — the `expired` flag, the transport handle, the signal
stream, the resumption token and the subscriber list — unchanged. -/
theorem associating_step_noop (st : LoopState) (sig : Signal) (n : Nat)
    (hs : sig.state = ZkState.STATE_ASSOCIATING)
    (ht : st.terminated = false) :
    manageStep st sig =
      { next := st, emitted := [], deliveries := [], logs := [] } ∧
    runSignals st (List.replicate n sig) =
      { final := st, events := [], deliveries := [], logs := [] } ∧
    (manageStep st sig).next.expired = st.expired ∧
    (manageStep st sig).next.sess.conn = st.sess.conn ∧
    (manageStep st sig).next.sess.events = st.sess.events ∧
    (manageStep st sig).next.sess.opts.clientID = st.sess.opts.clientID ∧
    (manageStep st sig).next.sess.subscriptions = st.sess.subscriptions := by
  obtain ⟨stt, rd⟩ := sig
  simp only [Signal.state] at hs
  subst hs
  have hstep :
      manageStep st { state := ZkState.STATE_ASSOCIATING, redial := rd } =
        { next := st, emitted := [], deliveries := [], logs := [] } := rfl
  refine ⟨hstep, ?_, rfl, rfl, rfl, rfl, rfl⟩
  induction n with
  | zero => rfl
  | succ m ih => simp [List.replicate_succ, runSignals, ht, hstep, ih]

/-- Witness for `associating_step_noop` at a concrete session and three
consecutive Associating signals. -/
theorem associating_step_noop_witness :
    manageStep testLoop sigAssociating =
      { next := testLoop, emitted := [], deliveries := [], logs := [] } ∧
    runSignals testLoop (List.replicate 3 sigAssociating) =
      { final := testLoop, events := [], deliveries := [], logs := [] } ∧
    (manageStep testLoop sigAssociating).next.expired = testLoop.expired ∧
    (manageStep testLoop sigAssociating).next.sess.conn = testLoop.sess.conn ∧
    (manageStep testLoop sigAssociating).next.sess.events =
      testLoop.sess.events ∧
    (manageStep testLoop sigAssociating).next.sess.opts.clientID =
      testLoop.sess.opts.clientID ∧
    (manageStep testLoop sigAssociating).next.sess.subscriptions =
      testLoop.sess.subscriptions :=
  associating_step_noop testLoop sigAssociating 3 rfl rfl

/-- C10: a signal whose state is none of the six recognized values is a
total no-op for the loop: the step emits nothing, delivers nothing, logs
nothing, changes nothing and does not terminate, and a run simply
continues with the remaining signals. -/
theorem unknown_signal_noop (st : LoopState) (sig : Signal) (code : Int)
    (rest : List Signal) (hs : sig.state = ZkState.other code)
    (ht : st.terminated = false) :
    manageStep st sig =
      { next := st, emitted := [], deliveries := [], logs := [] } ∧
    (manageStep st sig).next.terminated = false ∧
    runSignals st (sig :: rest) = runSignals st rest := by
  obtain ⟨stt, rd⟩ := sig
  simp only [Signal.state] at hs
  subst hs
  refine ⟨rfl, ht, ?_⟩
  simp [runSignals, ht, manageStep]

/-- Witness for `unknown_signal_noop` at a concrete session, the
unrecognized state value 42 and a following Connecting signal. -/
theorem unknown_signal_noop_witness :
    manageStep testLoop sigOther =
      { next := testLoop, emitted := [], deliveries := [], logs := [] } ∧
    (manageStep testLoop sigOther).next.terminated = false ∧
    runSignals testLoop (sigOther :: [sigConnecting]) =
      runSignals testLoop [sigConnecting] :=
  unknown_signal_noop testLoop sigOther 42 [sigConnecting] rfl rfl

/-- C9: if the options given to `NewSessionWithOpts` do not set a receive
timeout, the folded options carry `DefaultRecvTimeout`, which is exactly
5 seconds; and if no logger is supplied, the logger is the no-op
`nullLogger`, whose `Printf` emits nothing. -/
theorem session_opts_defaults (opts : List SessionOpt) :
    (opts.all (fun o => !o.setsRecvTimeout) = true →
      (buildSessionOpts opts).recvTimeout = DefaultRecvTimeout ∧
      DefaultRecvTimeout = 5 * timeSecond) ∧
    (opts.all (fun o => !o.setsLogger) = true →
      ∀ f a, ((buildSessionOpts opts).logger).printf f a = []) := by
  constructor
  · intro h
    exact ⟨foldl_recvTimeout opts _ h, rfl⟩
  · intro h f a
    rw [buildSessionOpts, foldl_logger opts _ h]
    rfl

/-- Witness for `session_opts_defaults` at a concrete option list that
sets only the server list. -/
theorem session_opts_defaults_witness :
    (buildSessionOpts [SessionOpt.withZookeepers ["zk1:2181"]]).recvTimeout =
      DefaultRecvTimeout ∧
    ((buildSessionOpts [SessionOpt.withZookeepers ["zk1:2181"]]).logger).printf
      "fmt" ["arg"] = [] :=
  ⟨((session_opts_defaults [SessionOpt.withZookeepers ["zk1:2181"]]).1 rfl).1,
   (session_opts_defaults [SessionOpt.withZookeepers ["zk1:2181"]]).2 rfl
     "fmt" ["arg"]⟩

/-- C5: a SessionExpired signal whose redial succeeds emits no lifecycle
event, and the step installs the new handle and new signal stream and
replaces the resumption token in the options by the token of the new
handle, so that the redial a subsequent SessionExpired signal would
perform is called with the newest token (same server list and timeout).
The token write happens inside the lock/unlock span of the swap trace. -/
theorem expired_redial_updates_state (st : LoopState) (sig : Signal)
    (c : Conn) (ev : ZkEventChan)
    (hs : sig.state = ZkState.STATE_EXPIRED_SESSION)
    (hr : sig.redial (redialCallArgs st.sess).1 (redialCallArgs st.sess).2.1
        (redialCallArgs st.sess).2.2 = Except.ok (c, ev)) :
    (manageStep st sig).emitted = [] ∧
    (manageStep st sig).deliveries = [] ∧
    (manageStep st sig).next.terminated = false ∧
    (manageStep st sig).next.sess.conn = some c ∧
    (manageStep st sig).next.sess.events = ev ∧
    (manageStep st sig).next.sess.opts.clientID = c.ClientId ∧
    redialCallArgs (manageStep st sig).next.sess =
      (String.intercalate "," st.sess.opts.servers, st.sess.opts.recvTimeout,
        c.ClientId) ∧
    guardedBy isTokenWrite 0 redialSwapActions = true := by
  obtain ⟨stt, rd⟩ := sig
  simp only [Signal.state] at hs
  subst hs
  simp only [Signal.redial, redialCallArgs] at hr
  refine ⟨?_, ?_, ?_, ?_, ?_, ?_, ?_, by decide⟩ <;>
    simp [manageStep, hr, redialCallArgs, applyOpt]

/-- Witness for `expired_redial_updates_state` at a concrete session and
a redial that succeeds with `testConn2`. -/
theorem expired_redial_updates_state_witness :
    (manageStep testLoop sigExpiredOk).emitted = [] ∧
    (manageStep testLoop sigExpiredOk).deliveries = [] ∧
    (manageStep testLoop sigExpiredOk).next.terminated = false ∧
    (manageStep testLoop sigExpiredOk).next.sess.conn = some testConn2 ∧
    (manageStep testLoop sigExpiredOk).next.sess.events = 5 ∧
    (manageStep testLoop sigExpiredOk).next.sess.opts.clientID =
      testConn2.ClientId ∧
    redialCallArgs (manageStep testLoop sigExpiredOk).next.sess =
      (String.intercalate "," testSession.opts.servers,
        testSession.opts.recvTimeout, testConn2.ClientId) ∧
    guardedBy isTokenWrite 0 redialSwapActions = true :=
  expired_redial_updates_state testLoop sigExpiredOk testConn2 5 rfl rfl

/-- C6: when the old handle's `Close` fails during the swap after a
successful redial, the error is logged and swallowed: the step emits no
lifecycle event and delivers nothing, the loop does not terminate, and the
new handle, stream and token are installed regardless. -/
theorem close_error_logged_swallowed (st : LoopState) (sig : Signal)
    (old c : Conn) (ev : ZkEventChan) (e : ZkError)
    (hs : sig.state = ZkState.STATE_EXPIRED_SESSION)
    (hr : sig.redial (redialCallArgs st.sess).1 (redialCallArgs st.sess).2.1
        (redialCallArgs st.sess).2.2 = Except.ok (c, ev))
    (hold : st.sess.conn = some old)
    (herr : old.closeErr = some e) :
    LogEntry.closeError e ∈ (manageStep st sig).logs ∧
    (manageStep st sig).emitted = [] ∧
    (manageStep st sig).deliveries = [] ∧
    (manageStep st sig).next.terminated = false ∧
    (manageStep st sig).next.sess.conn = some c ∧
    (manageStep st sig).next.sess.events = ev ∧
    (manageStep st sig).next.sess.opts.clientID = c.ClientId := by
  obtain ⟨stt, rd⟩ := sig
  simp only [Signal.state] at hs
  subst hs
  simp only [Signal.redial, redialCallArgs] at hr
  refine ⟨?_, ?_, ?_, ?_, ?_, ?_, ?_⟩ <;>
    simp [manageStep, hr, hold, herr, redialCallArgs, applyOpt]

/-- Witness for `close_error_logged_swallowed`: the session holds
`testConnBad`, whose `Close` fails with "close failed", and the redial
succeeds with `testConn2`. -/
theorem close_error_logged_swallowed_witness :
    LogEntry.closeError "close failed" ∈ (manageStep testLoop sigExpiredOk).logs ∧
    (manageStep testLoop sigExpiredOk).emitted = [] ∧
    (manageStep testLoop sigExpiredOk).deliveries = [] ∧
    (manageStep testLoop sigExpiredOk).next.terminated = false ∧
    (manageStep testLoop sigExpiredOk).next.sess.conn = some testConn2 ∧
    (manageStep testLoop sigExpiredOk).next.sess.events = 5 ∧
    (manageStep testLoop sigExpiredOk).next.sess.opts.clientID =
      testConn2.ClientId :=
  close_error_logged_swallowed testLoop sigExpiredOk testConnBad testConn2 5
    "close failed" rfl rfl rfl rfl

/-- C2: a step that emits SessionFailed or SessionClosed leaves the loop
terminated; once the loop has terminated, no schedule of further
interactions — signals or new subscriptions — produces any event or any
delivery; and the signals following a terminating one are never processed:
the run's whole output is the terminal step's output. -/
theorem terminal_event_final :
    (∀ st sig, st.terminated = false →
      (ZKSessionEvent.SessionFailed ∈ (manageStep st sig).emitted ∨
        ZKSessionEvent.SessionClosed ∈ (manageStep st sig).emitted) →
      (manageStep st sig).next.terminated = true) ∧
    (∀ st acts, st.terminated = true →
      (runActions st acts).events = [] ∧ (runActions st acts).deliveries = []) ∧
    (∀ st sig rest, st.terminated = false →
      (manageStep st sig).next.terminated = true →
      (runSignals st (sig :: rest)).events = (manageStep st sig).emitted ∧
      (runSignals st (sig :: rest)).deliveries = (manageStep st sig).deliveries) := by
  refine ⟨?_, ?_, ?_⟩
  · intro st sig h1 h2
    obtain ⟨stt, rd⟩ := sig
    cases stt with
    | STATE_EXPIRED_SESSION =>
        cases hr : rd (redialCallArgs st.sess).1 (redialCallArgs st.sess).2.1
            (redialCallArgs st.sess).2.2 with
        | ok v => simp [manageStep, hr] at h2
        | error e => simp [manageStep, hr]
    | STATE_AUTH_FAILED => simp [manageStep]
    | STATE_CONNECTING => simp [manageStep] at h2
    | STATE_ASSOCIATING => simp [manageStep] at h2
    | STATE_CONNECTED =>
        by_cases he : st.expired <;> simp [manageStep, he] at h2
    | STATE_CLOSED => simp [manageStep]
    | other code => simp [manageStep] at h2
  · intro st acts h
    induction acts generalizing st with
    | nil => exact ⟨rfl, rfl⟩
    | cons a rest ih =>
        cases a with
        | subscribe k => exact ih _ h
        | deliver sig => simp only [runActions, h, if_true]; exact ih _ h
  · intro st sig rest h1 h2
    constructor <;> simp [runSignals, h1, runSignals_terminated _ _ h2]

/-- Witness for `terminal_event_final`: an AuthFailed signal terminates
the loop; afterwards a schedule registering a fresh subscriber and
delivering a Connecting signal yields no events and no deliveries; and
signals following a Closed signal are never processed. -/
theorem terminal_event_final_witness :
    (manageStep testLoop sigAuthFailed).next.terminated = true ∧
    ((runActions (manageStep testLoop sigAuthFailed).next
        [SessAction.subscribe 9, SessAction.deliver sigConnecting]).events = [] ∧
      (runActions (manageStep testLoop sigAuthFailed).next
        [SessAction.subscribe 9, SessAction.deliver sigConnecting]).deliveries = []) ∧
    ((runSignals testLoop (sigClosed :: [sigConnecting])).events =
        (manageStep testLoop sigClosed).emitted ∧
      (runSignals testLoop (sigClosed :: [sigConnecting])).deliveries =
        (manageStep testLoop sigClosed).deliveries) :=
  ⟨terminal_event_final.1 testLoop sigAuthFailed rfl (Or.inl (by decide)),
   terminal_event_final.2.1 (manageStep testLoop sigAuthFailed).next
     [SessAction.subscribe 9, SessAction.deliver sigConnecting] (by decide),
   terminal_event_final.2.2 testLoop sigClosed [sigConnecting] rfl (by decide)⟩

/-- C7: a broadcast delivers the event to exactly the sinks registered at
the time, in registration order (the delivered sink list is the
subscription list itself) and carries the same event to each; the registry
mutex is held for the whole fan-out; and over any run, the deliveries a
sink registered once receives are exactly the emitted event trace in
emission order — so all such subscribers observe the identical order. -/
theorem broadcast_delivery_order :
    (∀ s e, (notifySubscribers s e).map Prod.fst = s.subscriptions ∧
      ∀ d ∈ notifySubscribers s e, d.2 = e) ∧
    (∀ subs, guardedBy isSend 0 (notifyActions subs) = true) ∧
    (∀ st sigs k, st.sess.subscriptions.count k = 1 →
      ((runSignals st sigs).deliveries.filter (fun d => d.1 == k)).map Prod.snd =
        (runSignals st sigs).events) := by
  refine ⟨?_, ?_, ?_⟩
  · intro s e
    constructor
    · simp only [notifySubscribers, List.map_map]
      exact List.map_id s.subscriptions
    · intro d hd
      simp only [notifySubscribers, List.mem_map] at hd
      obtain ⟨j, hj, rfl⟩ := hd
      rfl
  · intro subs
    have haux : ∀ l : List Nat,
        guardedBy isSend 1 (l.map MAction.send ++ [MAction.unlock]) = true := by
      intro l
      induction l with
      | nil => rfl
      | cons j r ih => simpa [guardedBy, isSend] using ih
    simpa [guardedBy, notifyActions] using haux subs
  · intro st sigs k
    induction sigs generalizing st with
    | nil => intro h; rfl
    | cons sig rest ih =>
        intro h
        by_cases hT : st.terminated = true
        · simp [runSignals, hT]
        · have hsub : (manageStep st sig).next.sess.subscriptions.count k = 1 := by
            rw [manageStep_subscriptions]; exact h
          simp only [runSignals, hT, if_false]
          simp [List.filter_append, manageStep_filter_deliv st sig k h, ih _ hsub]

/-- Witness for `broadcast_delivery_order`: a broadcast over the concrete
session reaches sink 4; the fan-out trace over two sinks is lock-guarded;
and over the run `[Connecting, Connected]` sink 4 receives exactly the
emitted trace. -/
theorem broadcast_delivery_order_witness :
    (notifySubscribers testSession ZKSessionEvent.SessionDisconnected).map
      Prod.fst = testSession.subscriptions ∧
    guardedBy isSend 0 (notifyActions [4, 9]) = true ∧
    ((runSignals testLoop [sigConnecting, sigConnected]).deliveries.filter
        (fun d => d.1 == 4)).map Prod.snd =
      (runSignals testLoop [sigConnecting, sigConnected]).events :=
  ⟨(broadcast_delivery_order.1 testSession ZKSessionEvent.SessionDisconnected).1,
   broadcast_delivery_order.2.1 [4, 9],
   broadcast_delivery_order.2.2 testLoop [sigConnecting, sigConnected] 4
     (by decide)⟩

/-- Unfolding one non-terminated iteration of the loop. -/
theorem runSignals_cons (st : LoopState) (sig : Signal) (rest : List Signal)
    (ht : st.terminated = false) :
    runSignals st (sig :: rest) =
      { final := (runSignals (manageStep st sig).next rest).final
        events := (manageStep st sig).emitted ++
          (runSignals (manageStep st sig).next rest).events
        deliveries := (manageStep st sig).deliveries ++
          (runSignals (manageStep st sig).next rest).deliveries
        logs := (manageStep st sig).logs ++
          (runSignals (manageStep st sig).next rest).logs } := by
  simp [runSignals, ht]

/-- C1: for every signal sequence over the six recognized states (each
expiry signal carrying its redial outcome), the events the loop emits are
exactly those the §4.1 table determines for the abstracted signal
sequence; both sides are functions of the signals and outcomes, so the
translation is deterministic. -/
theorem manage_matches_spec_table (st : LoopState) (sigs : List Signal)
    (ht : st.terminated = false)
    (hk : sigs.all (fun s => isKnownState s.state) = true) :
    (runSignals st sigs).events = specEvents st.expired (absSignals st sigs) := by
  induction sigs generalizing st with
  | nil => rfl
  | cons sig rest ih =>
      simp only [List.all_cons, Bool.and_eq_true] at hk
      rw [runSignals_cons st sig rest ht]
      obtain ⟨stt, rd⟩ := sig
      cases stt with
      | STATE_EXPIRED_SESSION =>
          cases hr : rd (redialCallArgs st.sess).1 (redialCallArgs st.sess).2.1
              (redialCallArgs st.sess).2.2 with
          | ok v =>
              obtain ⟨c, ev⟩ := v
              simp only [absSignals, absOf, manageStep, hr, specEvents,
                List.nil_append]
              exact ih _ rfl hk.2
          | error e =>
              have hrun := runSignals_terminated
                (manageStep st
                  { state := ZkState.STATE_EXPIRED_SESSION, redial := rd }).next
                rest (by simp [manageStep, hr])
              rw [hrun]
              simp [manageStep, hr, absSignals, absOf, specEvents]
      | STATE_AUTH_FAILED =>
          have hrun := runSignals_terminated
            (manageStep st
              { state := ZkState.STATE_AUTH_FAILED, redial := rd }).next rest rfl
          rw [hrun]
          simp [manageStep, absSignals, absOf, specEvents]
      | STATE_CONNECTING =>
          simp only [absSignals, absOf, manageStep, specEvents]
          simp [ih st ht hk.2]
      | STATE_ASSOCIATING =>
          simp only [absSignals, absOf, manageStep, specEvents, List.nil_append]
          exact ih st ht hk.2
      | STATE_CONNECTED =>
          by_cases he : st.expired = true
          · simp only [absSignals, absOf, manageStep, he, if_true, specEvents]
            simpa using ih ⟨st.sess, false, st.terminated⟩ ht hk.2
          · simp only [Bool.not_eq_true] at he
            simp only [absSignals, absOf, manageStep, he, Bool.false_eq_true,
              if_false, specEvents]
            simp [ih st ht hk.2, he]
      | STATE_CLOSED =>
          have hrun := runSignals_terminated
            (manageStep st
              { state := ZkState.STATE_CLOSED, redial := rd }).next rest rfl
          rw [hrun]
          simp [manageStep, absSignals, absOf, specEvents]
      | other code => simp [isKnownState] at hk

/-- Witness for `manage_matches_spec_table` on the concrete run
`[Connecting, SessionExpired(redial succeeds), Connected]`. -/
theorem manage_matches_spec_table_witness :
    (runSignals testLoop [sigConnecting, sigExpiredOk, sigConnected]).events =
      specEvents testLoop.expired
        (absSignals testLoop [sigConnecting, sigExpiredOk, sigConnected]) :=
  manage_matches_spec_table testLoop
    [sigConnecting, sigExpiredOk, sigConnected] rfl rfl

/-- Under a run that does not terminate, the final flag is the fold of the
per-step flag updates. -/
theorem runSignals_expired_fold (st : LoopState) (sigs : List Signal)
    (hnt : (runSignals st sigs).final.terminated = false) :
    (runSignals st sigs).final.expired = expiredFold st.expired sigs := by
  induction sigs generalizing st with
  | nil => rfl
  | cons sig rest ih =>
      by_cases hT : st.terminated = true
      · rw [runSignals_terminated st (sig :: rest) hT] at hnt
        simp [hT] at hnt
      · have hT' : st.terminated = false := by simpa using hT
        rw [runSignals_cons st sig rest hT'] at hnt ⊢
        have h2 := ih (manageStep st sig).next hnt
        rw [manageStep_expired_eq st sig] at h2
        exact h2

/-- Written from the spec: some processed SessionExpired signal has no
Connected signal after it — the point of observation lies strictly between
a session-expiry signal and the next reconnection. -/
def ExpiredInterval (sigs : List Signal) : Prop :=
  ∃ a x b, sigs = a ++ x :: b ∧ x.state = ZkState.STATE_EXPIRED_SESSION ∧
    ∀ t ∈ b, t.state ≠ ZkState.STATE_CONNECTED

/-- Splitting the interval property at the last signal. -/
theorem interval_snoc (l : List Signal) (t : Signal) :
    ExpiredInterval (l ++ [t]) ↔
      t.state = ZkState.STATE_EXPIRED_SESSION ∨
      (ExpiredInterval l ∧ t.state ≠ ZkState.STATE_CONNECTED) := by
  constructor
  · rintro ⟨a, x, b, heq, hx, hb⟩
    rcases List.eq_nil_or_concat b with hb0 | ⟨b', u, rfl⟩
    · subst hb0
      obtain ⟨h1, h2⟩ := List.append_inj' heq rfl
      have htx : t = x := by
        simp only [List.cons.injEq, and_true] at h2
        exact h2
      subst htx
      exact Or.inl hx
    · have heq2 : l ++ [t] = (a ++ x :: b') ++ [u] := by
        simpa [List.append_assoc] using heq
      obtain ⟨h1, h2⟩ := List.append_inj' heq2 rfl
      have htu : t = u := by
        have := h2
        simp only [List.cons.injEq, and_true] at this
        exact this
      subst htu
      refine Or.inr ⟨⟨a, x, b', h1, hx, fun s hs => hb s (by simp [hs])⟩, ?_⟩
      exact hb t (by simp)
  · rintro (ht | ⟨⟨a, x, b, rfl, hx, hb⟩, hnt⟩)
    · exact ⟨l, t, [], rfl, ht, by simp⟩
    · refine ⟨a, x, b ++ [t], by simp, hx, ?_⟩
      intro s hs
      rcases List.mem_append.mp hs with h | h
      · exact hb s h
      · rw [List.mem_singleton.mp h]
        exact hnt

/-- The flag fold starting from false holds exactly on the interval. -/
theorem expiredFold_iff_interval (sigs : List Signal) :
    expiredFold false sigs = true ↔ ExpiredInterval sigs := by
  induction sigs using List.reverseRecOn with
  | nil =>
      constructor
      · intro h
        exact absurd h (by simp [expiredFold])
      · rintro ⟨a, x, b, heq, -, -⟩
        exact absurd heq.symm (List.append_ne_nil_of_right_ne_nil a
          (List.cons_ne_nil x b))
  | append_singleton l t ih =>
      rw [expiredFold_append, interval_snoc]
      obtain ⟨ts, rd⟩ := t
      cases ts with
      | STATE_EXPIRED_SESSION => simp [expiredFold, flagUpd]
      | STATE_CONNECTED => simp [expiredFold, flagUpd]
      | STATE_AUTH_FAILED => simp [expiredFold, flagUpd, ih]
      | STATE_CONNECTING => simp [expiredFold, flagUpd, ih]
      | STATE_ASSOCIATING => simp [expiredFold, flagUpd, ih]
      | STATE_CLOSED => simp [expiredFold, flagUpd, ih]
      | other code => simp [expiredFold, flagUpd, ih]

/-- C3: the `expired` flag is initialized false; a step raises it only on
a SessionExpired signal; a step clears it only on a Connected signal
processed while it is true, and that step emits ExpiredReconnected; and at
any point of a non-terminated run the flag is true exactly when some
processed SessionExpired signal has no Connected signal after it — i.e.
strictly between an expiry and the next reconnection. -/
theorem expired_flag_interval (s : ZKSession) :
    (initLoop s).expired = false ∧
    (∀ st sig, st.expired = false →
      (manageStep st sig).next.expired = true →
      sig.state = ZkState.STATE_EXPIRED_SESSION) ∧
    (∀ st sig, st.expired = true →
      (manageStep st sig).next.expired = false →
      sig.state = ZkState.STATE_CONNECTED ∧
      (manageStep st sig).emitted = [ZKSessionEvent.SessionExpiredReconnected]) ∧
    (∀ sigs, (runSignals (initLoop s) sigs).final.terminated = false →
      ((runSignals (initLoop s) sigs).final.expired = true ↔
        ExpiredInterval sigs)) := by
  refine ⟨rfl, ?_, ?_, ?_⟩
  · intro st sig h1 h2
    obtain ⟨stt, rd⟩ := sig
    cases stt with
    | STATE_EXPIRED_SESSION => rfl
    | STATE_AUTH_FAILED => simp [manageStep, h1] at h2
    | STATE_CONNECTING => simp [manageStep, h1] at h2
    | STATE_ASSOCIATING => simp [manageStep, h1] at h2
    | STATE_CONNECTED => simp [manageStep, h1] at h2
    | STATE_CLOSED => simp [manageStep, h1] at h2
    | other code => simp [manageStep, h1] at h2
  · intro st sig h1 h2
    obtain ⟨stt, rd⟩ := sig
    cases stt with
    | STATE_EXPIRED_SESSION =>
        cases hr : rd (redialCallArgs st.sess).1 (redialCallArgs st.sess).2.1
            (redialCallArgs st.sess).2.2 with
        | ok v => simp [manageStep, hr] at h2
        | error e => simp [manageStep, hr] at h2
    | STATE_AUTH_FAILED => simp [manageStep, h1] at h2
    | STATE_CONNECTING => simp [manageStep, h1] at h2
    | STATE_ASSOCIATING => simp [manageStep, h1] at h2
    | STATE_CONNECTED => exact ⟨rfl, by simp [manageStep, h1]⟩
    | STATE_CLOSED => simp [manageStep, h1] at h2
    | other code => simp [manageStep, h1] at h2
  · intro sigs hnt
    rw [runSignals_expired_fold _ _ hnt]
    exact expiredFold_iff_interval sigs

/-- Witness for `expired_flag_interval`: over the concrete session, a
SessionExpired signal with a successful redial raises the flag, the next
Connected signal clears it emitting ExpiredReconnected, and after a run
consisting of just the expiry the flag is true. -/
theorem expired_flag_interval_witness :
    (initLoop testSession).expired = false ∧
    sigExpiredOk.state = ZkState.STATE_EXPIRED_SESSION ∧
    (sigConnected.state = ZkState.STATE_CONNECTED ∧
      (manageStep (manageStep testLoop sigExpiredOk).next sigConnected).emitted =
        [ZKSessionEvent.SessionExpiredReconnected]) ∧
    (runSignals (initLoop testSession) [sigExpiredOk]).final.expired = true :=
  ⟨(expired_flag_interval testSession).1,
   (expired_flag_interval testSession).2.1 testLoop sigExpiredOk rfl (by decide),
   (expired_flag_interval testSession).2.2.1
     (manageStep testLoop sigExpiredOk).next sigConnected (by decide) (by decide),
   ((expired_flag_interval testSession).2.2.2 [sigExpiredOk] (by decide)).mpr
     ⟨[], sigExpiredOk, [], rfl, rfl, by simp⟩⟩
